import Mathlib

/-!
Verification development for the two Flask pipelines of this repository:
`src/26100450.py` (legal research endpoint) and `src/27100212.py`
(Instagram post generator with carousel support).

The Python code is shallowly embedded: strings are Lean `String`s, the
SQLite tables are lists of row structures, the remote OpenAI/Anthropic
clients are oracles passed in as parameters (their answers are arbitrary),
and Python exceptions are modelled with `Except`.  Python `str.upper` /
`str.isdigit` are modelled on ASCII (plus the Latin-1 superscript digits
as representatives of Unicode digit-class characters that `int()`
rejects); the markers scanned for are all ASCII, so this matches the
source behaviour on the inputs the claims are about.
-/

/-! ## String primitives modelling the Python operations used at
`src/27100212.py` lines 140-162. -/

/-- Python `str.upper()` restricted to ASCII letters. -/
def pyUpper (s : String) : String := ⟨s.data.map Char.toUpper⟩

/-- `listStartsWith pat l` is true when `pat` is an initial segment of `l`. -/
def listStartsWith : List Char → List Char → Bool
  | [], _ => true
  | _ :: _, [] => false
  | p :: ps, c :: cs => p == c && listStartsWith ps cs

/-- `listHasSub pat l` is true when `pat` occurs contiguously inside `l`;
this is Python's `pat in l` for strings. -/
def listHasSub (pat : List Char) : List Char → Bool
  | [] => pat.isEmpty
  | c :: rest => listStartsWith pat (c :: rest) || listHasSub pat rest

/-- Python `pat in s` (substring containment). -/
def strContains (s pat : String) : Bool := listHasSub pat.data s.data

/-- Helper for `pyLines`: split a character list on newline characters. -/
def splitNlAux : List Char → List Char → List (List Char)
  | [], acc => [acc.reverse]
  | c :: rest, acc =>
      if c == '\n' then acc.reverse :: splitNlAux rest []
      else splitNlAux rest (c :: acc)

/-- Python `s.split('\n')`: every newline separates, empty pieces kept. -/
def pyLines (s : String) : List String :=
  (splitNlAux s.data []).map List.asString

/-- Python `str.isdigit` on the characters that can occur here: the ASCII
decimal digits together with the Latin-1 superscript digits, which are in
the Unicode digit class but are rejected by `int()`. -/
def pyIsDigit (c : Char) : Bool :=
  c.isDigit || c == '¹' || c == '²' || c == '³'

/-- Decimal value of a list of ASCII digits. -/
def decValue (l : List Char) : Nat :=
  l.foldl (fun a c => 10 * a + (c.toNat - 48)) 0

/-- Python `int(s)` on a digit string: raises (`.error`) when the string is
empty or contains a digit-class character that is not an ASCII decimal
digit, otherwise returns the decimal value. -/
def pyInt (l : List Char) : Except Unit Nat :=
  if l.isEmpty then .error ()
  else if l.all Char.isDigit then .ok (decValue l)
  else .error ()

/-! ## The plan parser of `generate_post` (`src/27100212.py` lines 140-162). -/

/-- The two post types the planner can choose. -/
inductive PostType where
  | SINGLE
  | CAROUSEL
deriving DecidableEq

/-- The database string for a post type. -/
def PostType.toStr : PostType → String
  | .SINGLE => "SINGLE"
  | .CAROUSEL => "CAROUSEL"

/-- `'POST_TYPE:' in line.upper()` (line 146). -/
def hasTypeMarker (l : String) : Bool := strContains (pyUpper l) "POST_TYPE:"

/-- `'IMAGE_COUNT:' in line.upper()` (line 154). -/
def hasCountMarker (l : String) : Bool := strContains (pyUpper l) "IMAGE_COUNT:"

/-- The `for line in plan_text.split('\n')` loop of lines 145-149: stop at
the first line containing the type marker; `CAROUSEL` on that line selects
the carousel type, anything else leaves the default `SINGLE`. -/
def postTypeLoop : List String → PostType
  | [] => .SINGLE
  | l :: rest =>
      if hasTypeMarker l then
        if strContains (pyUpper l) "CAROUSEL" then .CAROUSEL else .SINGLE
      else postTypeLoop rest

/-- Post-type extraction from the planning response text (lines 141-149). -/
def postTypeOf (t : String) : PostType := postTypeLoop (pyLines t)

/-- The body of the `try:` block at lines 155-159 for one marker line:
`count_str = ''.join(filter(str.isdigit, line))`; when `count_str` is
empty nothing is assigned (`.ok none`), otherwise
`max(2, min(10, int(count_str)))` is assigned, and a failing `int` raises. -/
def countLineBody (l : String) : Except Unit (Option Nat) :=
  let ds := l.data.filter pyIsDigit
  if ds.isEmpty then .ok none
  else
    match pyInt ds with
    | .ok v => .ok (some (max 2 (min 10 v)))
    | .error e => .error e

/-- Lines 155-162 for the first marker line: the `except:` handler turns a
raised exception into the default carousel size 3; an empty digit string
leaves `image_count` at its current value `cur`. -/
def countLineStep (l : String) (cur : Nat) : Nat :=
  match countLineBody l with
  | .ok none => cur
  | .ok (some v) => v
  | .error _ => 3

/-- The `for line in plan_text.split('\n')` loop of lines 153-162, with
`image_count` starting at its initial value 1 (line 142): the loop breaks
at the first line containing the count marker. -/
def imageCountLoop : List String → Nat
  | [] => 1
  | l :: rest => if hasCountMarker l then countLineStep l 1 else imageCountLoop rest

/-- Image-count extraction from the planning response text (lines 151-162,
entered only when the post type parsed as `CAROUSEL`). -/
def extractImageCount (t : String) : Nat := imageCountLoop (pyLines t)

/-- Exception-level model of lines 153-162: each `.error` the try-block can
produce is caught by the `except:` handler on that line, so an `.error`
result here would mean an exception escaping to `generate_post`'s outer
handler. -/
def imageCountLoopE : List String → Except Unit Nat
  | [] => .ok 1
  | l :: rest =>
      if hasCountMarker l then
        match countLineBody l with
        | .ok none => .ok 1
        | .ok (some v) => .ok v
        | .error _ => .ok 3
      else imageCountLoopE rest

/-- Exception-level image-count extraction. -/
def extractImageCountE (t : String) : Except Unit Nat := imageCountLoopE (pyLines t)

/-- The complete response-field parse of lines 140-162: post type, and the
image count (which is only recomputed for `CAROUSEL` plans). -/
def parsePlan (t : String) : PostType × Nat :=
  let pt := postTypeOf t
  (pt, if pt = .CAROUSEL then extractImageCount t else 1)

/-- Exception-level model of the complete parse: an `.error` would be an
exception raised to the caller. -/
def parsePlanE (t : String) : Except Unit (PostType × Nat) :=
  let pt := postTypeOf t
  if pt = .CAROUSEL then
    match extractImageCountE t with
    | .ok n => .ok (pt, n)
    | .error e => .error e
  else .ok (pt, 1)

/-- The count parser as the specification sentence describes it: find the
count-marker line, take the first contiguous run of decimal digits on it,
parse and clamp into `[2, 10]`, and fall back to the default 3 when the
line has no digits. -/
def extractImageCountSpec (t : String) : Nat :=
  match (pyLines t).find? (fun l => hasCountMarker l) with
  | none => 1
  | some l =>
      let run := ((l.data.dropWhile (fun c => !c.isDigit)).takeWhile Char.isDigit)
      if run.isEmpty then 3
      else max 2 (min 10 (decValue run))

/-! ## Helper lemmas about the scanning loops. -/

/-- `countLineStep` spelled out by cases on the digit string. -/
theorem countLineStep_eq (l : String) (c : Nat) :
    countLineStep l c =
      if (l.data.filter pyIsDigit).isEmpty then c
      else
        match pyInt (l.data.filter pyIsDigit) with
        | .ok v => max 2 (min 10 v)
        | .error _ => 3 := by
  unfold countLineStep countLineBody
  by_cases h : (l.data.filter pyIsDigit).isEmpty
  · simp [h]
  · simp [h]
    cases pyInt (l.data.filter pyIsDigit) <;> simp

/-- The count loop returns the step value of the first marker line. -/
theorem imageCountLoop_eq_find (ls : List String) :
    imageCountLoop ls =
      match ls.find? (fun l => hasCountMarker l) with
      | none => 1
      | some l => countLineStep l 1 := by
  induction ls with
  | nil => rfl
  | cons l rest ih =>
      by_cases h : hasCountMarker l
      · simp [imageCountLoop, List.find?_cons_of_pos _ h, h]
      · simp only [Bool.not_eq_true] at h
        simp [imageCountLoop, List.find?_cons_of_neg, h, ih]

/-- The type loop returns the classification of the first marker line. -/
theorem postTypeLoop_eq_find (ls : List String) :
    postTypeLoop ls =
      match ls.find? (fun l => hasTypeMarker l) with
      | none => PostType.SINGLE
      | some l =>
          if strContains (pyUpper l) "CAROUSEL" then PostType.CAROUSEL
          else PostType.SINGLE := by
  induction ls with
  | nil => rfl
  | cons l rest ih =>
      by_cases h : hasTypeMarker l
      · simp [postTypeLoop, List.find?_cons_of_pos _ h, h]
      · simp only [Bool.not_eq_true] at h
        simp [postTypeLoop, List.find?_cons_of_neg, h, ih]

/-- The exception-level count loop never propagates an exception: the
per-line handler resolves every raise. -/
theorem imageCountLoopE_ok (ls : List String) :
    imageCountLoopE ls = Except.ok (imageCountLoop ls) := by
  induction ls with
  | nil => rfl
  | cons l rest ih =>
      by_cases h : hasCountMarker l
      · cases hb : countLineBody l with
        | ok v => cases v <;> simp [imageCountLoopE, imageCountLoop, h, countLineStep, hb]
        | error e => simp [imageCountLoopE, imageCountLoop, h, countLineStep, hb]
      · simp only [Bool.not_eq_true] at h
        simp [imageCountLoopE, imageCountLoop, h, ih]

/-! ## Claims about the response-field parser. -/

/-- C1 (counterexample to the claim as stated): on the marker line
`"IMAGE_COUNT: none"`, which contains no digits, the code leaves the count
at its initial value 1 while the claimed behaviour gives the default 3;
and on `"IMAGE_COUNT: 2 of 4 slides"` the code concatenates every digit on
the line (`"24"`, clamped to 10) instead of taking the first contiguous
digit run (`"2"`, clamped to 2). -/
theorem claim1_counterexample :
    (extractImageCount "IMAGE_COUNT: none" = 1
      ∧ extractImageCountSpec "IMAGE_COUNT: none" = 3)
    ∧ (extractImageCount "IMAGE_COUNT: 2 of 4 slides" = 10
      ∧ extractImageCountSpec "IMAGE_COUNT: 2 of 4 slides" = 2) := by
  decide

/-- C1 (amended): the bounded-count parser scans for the first line
containing the count marker and concatenates every decimal-digit character
of that line; when there is at least one digit character it parses the
concatenation as an integer and clamps it into `[2, 10]`, falling back to
the default 3 only when `int` raises (digit-class characters that are not
decimal digits); when the line has no digit characters — or no marker line
exists — the count keeps its initial value 1. -/
theorem claim1_count_extraction (t : String) :
    extractImageCount t =
      match (pyLines t).find? (fun l => hasCountMarker l) with
      | none => 1
      | some l =>
          if (l.data.filter pyIsDigit).isEmpty then 1
          else
            match pyInt (l.data.filter pyIsDigit) with
            | .ok v => max 2 (min 10 v)
            | .error _ => 3 := by
  have h := imageCountLoop_eq_find (pyLines t)
  rw [extractImageCount, h]
  cases (pyLines t).find? (fun l => hasCountMarker l) with
  | none => rfl
  | some l => simp [countLineStep_eq]

/-- C3: the type classifier stops at the first line containing the
`POST_TYPE` marker (case-insensitively); that line classifies as
`CAROUSEL` exactly when it contains the keyword `CAROUSEL`, and an
unrecognized value — or the absence of any marker line — yields the
default `SINGLE`. -/
theorem claim3_post_type_classifier (t : String) :
    postTypeOf t =
      match (pyLines t).find? (fun l => hasTypeMarker l) with
      | none => PostType.SINGLE
      | some l =>
          if strContains (pyUpper l) "CAROUSEL" then PostType.CAROUSEL
          else PostType.SINGLE :=
  postTypeLoop_eq_find (pyLines t)

/-- C5: the response-field parser is total — its exception-level model
never returns an escaped exception, and on every input it produces exactly
the value of the pure default-resolving parser. -/
theorem claim5_parser_total (t : String) :
    parsePlanE t = Except.ok (parsePlan t) := by
  unfold parsePlanE parsePlan
  by_cases h : postTypeOf t = PostType.CAROUSEL
  · simp [h, extractImageCountE, imageCountLoopE_ok, extractImageCount]
  · simp [h]

/-! ## Database model (`instagram_posts.db`, tables `posts` and
`post_images` from `init_db` at `src/27100212.py` lines 29-64). -/

/-- A row of the `posts` table. -/
structure PostRow where
  id : Nat
  headline : String
  content : String
  news_link : String
  post_type : String
  plan : String
  caption : String
deriving DecidableEq

/-- A row of the `post_images` table (its own autoincrement id is never
read back by the code and is omitted). -/
structure ImageRow where
  post_id : Nat
  image_url : String
  image_prompt : String
  sequence_order : Nat
deriving DecidableEq

/-- The two tables plus the autoincrement counter that produces
`lastrowid` for the next inserted post. -/
structure Db where
  posts : List PostRow
  images : List ImageRow
  nextId : Nat
deriving DecidableEq

/-- The empty database produced by `init_db`. -/
def dbEmpty : Db := { posts := [], images := [], nextId := 1 }

/-! ## The `/generate` endpoint (`generate_post`, lines 78-262). -/

/-- The three JSON fields of a `/generate` request; `none` models an
absent key (`data.get` returns `None`). -/
structure GenRequest where
  headline : Option String
  content : Option String
  news_link : Option String
deriving DecidableEq

/-- Python truthiness of an optional string: `None` and `""` are falsy.
`not all([headline, content, news_link])` at line 92 is the disjunction of
the negations of these. -/
def truthy : Option String → Bool
  | none => false
  | some s => !s.isEmpty

/-- What one image-generation sub-call returns (`generate_single_image` /
`generate_carousel_image`, lines 265-328): the saved file's URL, the
prompt used, and the response id threaded to the next call. -/
structure ImageData where
  url : String
  prompt : String
  response_id : String
deriving DecidableEq

/-- Oracle abstracting the remote OpenAI client and the image files: the
planning response text, the caption response text, and the result of the
`i`-th image sub-call (0-based).  The conversation-handle threading
(`previous_response_id`) orders the calls but does not influence what is
persisted, so the oracle indexes sub-calls by position. -/
structure Oracle where
  planText : String
  caption : String
  imgResults : Nat → ImageData

/-- Step 2 of `generate_post` (lines 166-184): a `SINGLE` post generates
one image; a `CAROUSEL` post loops `for i in range(image_count)`. -/
def buildImages (o : Oracle) (pt : PostType) (n : Nat) : List ImageData :=
  match pt with
  | .SINGLE => [o.imgResults 0]
  | .CAROUSEL => (List.range n).map o.imgResults

/-- The `for i, img in enumerate(generated_images)` insertion loop of
lines 236-240, with `k` the enumeration index of the first element. -/
def mkImageRows (pid : Nat) (k : Nat) : List ImageData → List ImageRow
  | [] => []
  | img :: rest =>
      { post_id := pid, image_url := img.url, image_prompt := img.prompt,
        sequence_order := k } :: mkImageRows pid (k + 1) rest

/-- Everything a call to `generate_post` produces that the claims look at:
the HTTP status, the database after the request, the number of remote
model calls issued, and the `post_id` of the response body (when any). -/
structure GenResult where
  status : Nat
  db : Db
  remoteCalls : Nat
  postId : Option Nat
deriving DecidableEq

/-- `generate_post` (lines 78-262) with an infallible oracle: validation
at lines 92-93 returns 400 before any remote call or database access;
otherwise the plan is parsed (lines 140-162), the image sub-calls run
(each issuing two remote calls: one prompt call and one image call), the
caption call runs, and one `posts` row plus one `post_images` row per
generated image are inserted (lines 229-240).  A remote failure would
abort before the inserts and return 500, persisting nothing. -/
def generate_post (req : GenRequest) (o : Oracle) (db : Db) : GenResult :=
  if !(truthy req.headline && truthy req.content && truthy req.news_link) then
    { status := 400, db := db, remoteCalls := 0, postId := none }
  else
    let pt := (parsePlan o.planText).1
    let n := (parsePlan o.planText).2
    let imgs := buildImages o pt n
    let pid := db.nextId
    let postRow : PostRow :=
      { id := pid, headline := req.headline.getD "", content := req.content.getD "",
        news_link := req.news_link.getD "", post_type := pt.toStr,
        plan := o.planText, caption := o.caption }
    { status := 200,
      db := { posts := db.posts ++ [postRow],
              images := db.images ++ mkImageRows pid 0 imgs,
              nextId := db.nextId + 1 },
      remoteCalls := 1 + 2 * imgs.length + 1,
      postId := some pid }

/-! ## The `/post/<id>` and `/delete/<id>` endpoints. -/

/-- `get_post` (lines 424-478): status together with the post row and its
images ordered by `sequence_order`; a missing id gives 404 and no body. -/
def get_post (db : Db) (pid : Nat) : Nat × Option (PostRow × List ImageRow) :=
  match db.posts.find? (fun p => p.id == pid) with
  | none => (404, none)
  | some p =>
      (200, some (p, (db.images.filter (fun r => r.post_id == pid)).mergeSort
        (fun a b => a.sequence_order ≤ b.sequence_order)))

/-- `delete_post` (lines 481-511): unconditionally `DELETE FROM
post_images WHERE post_id = ?` and `DELETE FROM posts WHERE id = ?`, then
report success with status 200.  The best-effort removal of backing image
files touches only the filesystem and is outside the database model. -/
def delete_post (db : Db) (pid : Nat) : Nat × Bool × Db :=
  (200, true,
    { posts := db.posts.filter (fun p => !(p.id == pid)),
      images := db.images.filter (fun r => !(r.post_id == pid)),
      nextId := db.nextId })

/-! ## The persisted-data invariant and helper lemmas. -/

/-- The `post_images` rows belonging to a given post id. -/
def imagesOf (db : Db) (pid : Nat) : List ImageRow :=
  db.images.filter (fun r => r.post_id == pid)

/-- The data-model invariant of the specification: sequence positions of a
post are contiguous from 0 and unique, a `SINGLE` post has exactly one
image, a `CAROUSEL` post has between 2 and 10 inclusive. -/
def dbInvariant (db : Db) : Prop :=
  ∀ p ∈ db.posts,
    ((imagesOf db p.id).map (fun r => r.sequence_order)
        = List.range (imagesOf db p.id).length)
    ∧ (p.post_type = "SINGLE" → (imagesOf db p.id).length = 1)
    ∧ (p.post_type = "CAROUSEL" →
        2 ≤ (imagesOf db p.id).length ∧ (imagesOf db p.id).length ≤ 10)

/-- The insertion loop writes consecutive sequence orders starting at `k`. -/
theorem mkImageRows_map_order (pid k : Nat) (imgs : List ImageData) :
    (mkImageRows pid k imgs).map (fun r => r.sequence_order)
      = List.range' k imgs.length := by
  induction imgs generalizing k with
  | nil => rfl
  | cons i rest ih => simp [mkImageRows, List.range', ih]

/-- Every row written by the insertion loop carries the new post id. -/
theorem mkImageRows_all_pid (pid k : Nat) (imgs : List ImageData) :
    (mkImageRows pid k imgs).all (fun r => r.post_id == pid) = true := by
  induction imgs generalizing k with
  | nil => rfl
  | cons i rest ih => simp [mkImageRows, ih]

/-- The insertion loop writes one row per generated image. -/
theorem mkImageRows_length (pid k : Nat) (imgs : List ImageData) :
    (mkImageRows pid k imgs).length = imgs.length := by
  induction imgs generalizing k with
  | nil => rfl
  | cons i rest ih => simp [mkImageRows, ih]

instance (db : Db) : Decidable (dbInvariant db) := by
  unfold dbInvariant
  exact List.decidableBAll _ _

/-! ## Claims about `/generate` persistence. -/

/-- A planning response that declares a carousel but never gives a
parsable image count. -/
def bugOracle : Oracle :=
  { planText := "POST_TYPE: CAROUSEL", caption := "caption",
    imgResults := fun _ => { url := "u.png", prompt := "p", response_id := "r" } }

/-- C2 (code bug): a valid request whose planning response is
`"POST_TYPE: CAROUSEL"` with no image-count line is persisted as a
`CAROUSEL` post with exactly one image row, violating the 2-to-10
carousel invariant — the `image_count = 1` initialisation survives
because the digitless fallback never assigns the documented default 3. -/
theorem claim2_carousel_invariant_violation :
    (generate_post ⟨some "h", some "c", some "l"⟩ bugOracle dbEmpty).status = 200
    ∧ ((generate_post ⟨some "h", some "c", some "l"⟩ bugOracle dbEmpty).db.posts.map
        (fun p => p.post_type)) = ["CAROUSEL"]
    ∧ (generate_post ⟨some "h", some "c", some "l"⟩ bugOracle dbEmpty).db.images.length = 1
    ∧ ¬ dbInvariant (generate_post ⟨some "h", some "c", some "l"⟩ bugOracle dbEmpty).db := by
  decide

/-- C4: a successful `/generate` request persists, after the pre-existing
rows, exactly one image row with sequence order 0 when the parsed type is
`SINGLE`, and exactly N rows with sequence orders `0..N-1` (contiguous and
unique) when the parsed type is `CAROUSEL` with parsed count N, all
carrying the new post's id. -/
theorem claim4_persisted_image_orders (req : GenRequest) (o : Oracle) (db : Db)
    (h : (truthy req.headline && truthy req.content && truthy req.news_link) = true) :
    (generate_post req o db).status = 200
    ∧ (generate_post req o db).db.images.take db.images.length = db.images
    ∧ ((generate_post req o db).db.images.drop db.images.length).map
        (fun r => r.sequence_order)
      = List.range (if (parsePlan o.planText).1 = PostType.SINGLE then 1
                    else (parsePlan o.planText).2)
    ∧ ((generate_post req o db).db.images.drop db.images.length).all
        (fun r => r.post_id == db.nextId) = true := by
  unfold generate_post
  rw [h]
  simp only [Bool.not_true, Bool.false_eq_true, if_false]
  refine ⟨trivial, List.take_left _ _, ?_, ?_⟩
  · rw [List.drop_left, mkImageRows_map_order, List.range_eq_range']
    congr 1
    cases hpt : (parsePlan o.planText).1 <;> simp [buildImages, hpt]
  · rw [List.drop_left]
    exact mkImageRows_all_pid _ _ _

/-- A planning response for a plain single-image post. -/
def exOracleSingle : Oracle :=
  { planText := "POST_TYPE: SINGLE", caption := "cap",
    imgResults := fun _ => { url := "a.png", prompt := "q", response_id := "s" } }

/-- Witness for C4 at a concrete valid request with a `SINGLE` plan. -/
theorem claim4_witness :
    (generate_post ⟨some "h", some "c", some "l"⟩ exOracleSingle dbEmpty).status = 200
    ∧ (generate_post ⟨some "h", some "c", some "l"⟩ exOracleSingle dbEmpty).db.images.take
        dbEmpty.images.length = dbEmpty.images
    ∧ ((generate_post ⟨some "h", some "c", some "l"⟩ exOracleSingle dbEmpty).db.images.drop
        dbEmpty.images.length).map (fun r => r.sequence_order)
      = List.range (if (parsePlan exOracleSingle.planText).1 = PostType.SINGLE then 1
                    else (parsePlan exOracleSingle.planText).2)
    ∧ ((generate_post ⟨some "h", some "c", some "l"⟩ exOracleSingle dbEmpty).db.images.drop
        dbEmpty.images.length).all (fun r => r.post_id == dbEmpty.nextId) = true :=
  claim4_persisted_image_orders ⟨some "h", some "c", some "l"⟩ exOracleSingle dbEmpty
    (by decide)

/-- C6: a `/generate` request with any required field absent or empty is
answered 400 with the database untouched and zero remote calls issued. -/
theorem claim6_validation_400 (req : GenRequest) (o : Oracle) (db : Db)
    (h : req.headline = none ∨ req.headline = some "" ∨ req.content = none
        ∨ req.content = some "" ∨ req.news_link = none ∨ req.news_link = some "") :
    generate_post req o db = { status := 400, db := db, remoteCalls := 0, postId := none } := by
  have he : "".isEmpty = true := by decide
  have hv : (truthy req.headline && truthy req.content && truthy req.news_link) = false := by
    rcases h with h | h | h | h | h | h <;> simp [h, truthy, he]
  simp [generate_post, hv]

/-- An oracle never consulted by the validation-failure path. -/
def exOracle6 : Oracle :=
  { planText := "x", caption := "y",
    imgResults := fun _ => { url := "", prompt := "", response_id := "" } }

/-- Witness for C6 at a request with a missing headline. -/
theorem claim6_witness :
    generate_post ⟨none, some "c", some "l"⟩ exOracle6 dbEmpty
      = { status := 400, db := dbEmpty, remoteCalls := 0, postId := none } :=
  claim6_validation_400 ⟨none, some "c", some "l"⟩ exOracle6 dbEmpty (Or.inl rfl)

/-- C7: after deleting a post id, fetching it returns 404 and no image row
in the database references it — the posts row and all child image rows are
gone. -/
theorem claim7_delete_cascade (db : Db) (pid : Nat) :
    (get_post (delete_post db pid).2.2 pid).1 = 404
    ∧ ((delete_post db pid).2.2.images.all (fun r => !(r.post_id == pid))) = true := by
  constructor
  · have hf : ((db.posts.filter (fun p => !(p.id == pid))).find?
        (fun p => p.id == pid)) = none := by
      rw [List.find?_eq_none]
      intro x hx
      have hm := (List.mem_filter.mp hx).2
      simp at hm
      simp [hm]
    simp [get_post, delete_post, hf]
  · simp [delete_post]

/-- C10: deleting an identifier that appears nowhere in the database still
returns 200 with success and leaves the database unchanged — no not-found
check is made. -/
theorem claim10_delete_missing_ok (db : Db) (pid : Nat)
    (h : (db.posts.all (fun p => !(p.id == pid))) = true
       ∧ (db.images.all (fun r => !(r.post_id == pid))) = true) :
    delete_post db pid = (200, true, db) := by
  unfold delete_post
  have h1 : db.posts.filter (fun p => !(p.id == pid)) = db.posts :=
    List.filter_eq_self.mpr (List.all_eq_true.mp h.1)
  have h2 : db.images.filter (fun r => !(r.post_id == pid)) = db.images :=
    List.filter_eq_self.mpr (List.all_eq_true.mp h.2)
  rw [h1, h2]

/-- A one-post database used to exercise deletion of an absent id. -/
def exDb10 : Db :=
  { posts := [{ id := 1, headline := "h", content := "c", news_link := "l",
                post_type := "SINGLE", plan := "p", caption := "cap" }],
    images := [{ post_id := 1, image_url := "u", image_prompt := "q",
                 sequence_order := 0 }],
    nextId := 2 }

/-- Witness for C10: deleting the absent id 2 is a successful no-op. -/
theorem claim10_witness : delete_post exDb10 2 = (200, true, exDb10) :=
  claim10_delete_missing_ok exDb10 2 (by decide)

/-! ## The legal research pipeline (`src/26100450.py`). -/

/-- One content block of an API response message: a `type` tag
(`"thinking"`, `"text"`, ...) and its text payload. -/
structure CBlock where
  type : String
  text : String
deriving DecidableEq

/-- An API response message: an ordered list of content blocks. -/
structure Msg where
  content : List CBlock
deriving DecidableEq

/-- The `text_parts` accumulation loop of `extract_text_from_response`
(`src/26100450.py` lines 168-171): keep, in order, the text of every
block whose type is `"text"`. -/
def collectTextParts : List CBlock → List String
  | [] => []
  | b :: rest =>
      if b.type == "text" then b.text :: collectTextParts rest
      else collectTextParts rest

/-- `extract_text_from_response` (lines 155-172): the kept text parts
joined by `"\n\n"`. -/
def extract_text_from_response (m : Msg) : String :=
  String.intercalate "\n\n" (collectTextParts m.content)

/-- Python `str.strip()` on ASCII whitespace. -/
def pyStrip (s : String) : String :=
  ⟨((s.data.dropWhile Char.isWhitespace).reverse.dropWhile Char.isWhitespace).reverse⟩

/-- The JSON body and status of a `/research` response. -/
structure ResearchResult where
  status : Nat
  result? : Option String
  error? : Option String
  success? : Option Bool
deriving DecidableEq

/-- Oracle abstracting the two Anthropic calls of the pipeline:
`make_initial_research_call`, and `make_followup_call` as a function of
the first response (whose content is replayed into the follow-up
conversation); `.error` models a raised exception with its message. -/
structure ResearchOracle where
  first : Except String Msg
  second : Msg → Except String Msg

/-- The error text built at lines 231-234. -/
def errBody (e : String) : String :=
  "An error occurred while processing your request: " ++ e

/-- The `/research` handler (lines 184-234): 400 when the question is
empty after stripping, otherwise the two chained calls run inside the
outer try, whose handler returns 500 with the exception's message. -/
def research (q : Option String) (o : ResearchOracle) : ResearchResult :=
  let question := pyStrip (q.getD "")
  if question.isEmpty then
    { status := 400, result? := none,
      error? := some "Please provide a legal question.", success? := none }
  else
    match o.first with
    | .error e =>
        { status := 500, result? := none, error? := some (errBody e),
          success? := some false }
    | .ok m1 =>
        match o.second m1 with
        | .error e =>
            { status := 500, result? := none, error? := some (errBody e),
              success? := some false }
        | .ok m2 =>
            { status := 200, result? := some (extract_text_from_response m2),
              error? := none, success? := some true }

/-- C9: the text extractor returns exactly the text-type blocks, in their
original order, joined with blank-line separators — every non-text block
(thinking blocks included) is dropped. -/
theorem claim9_extract_text (m : Msg) :
    extract_text_from_response m
      = String.intercalate "\n\n"
          ((m.content.filter (fun b => b.type == "text")).map (fun b => b.text)) := by
  unfold extract_text_from_response
  congr 1
  induction m.content with
  | nil => rfl
  | cons b rest ih =>
      by_cases h : b.type == "text" <;> simp [collectTextParts, h, ih]

/-- C8: `/research` answers 400 when the question is empty after
trimming; 500 with the exception text and `success = false` when either
remote call raises; and 200 with the extracted result text and
`success = true` when both calls succeed. -/
theorem claim8_research_endpoint (q : Option String) (o : ResearchOracle) :
    ((pyStrip (q.getD "")).isEmpty = true →
      research q o =
        { status := 400, result? := none,
          error? := some "Please provide a legal question.", success? := none })
    ∧ (∀ e, (pyStrip (q.getD "")).isEmpty = false → o.first = .error e →
        research q o =
          { status := 500, result? := none, error? := some (errBody e),
            success? := some false })
    ∧ (∀ m1 e, (pyStrip (q.getD "")).isEmpty = false → o.first = .ok m1
        → o.second m1 = .error e →
        research q o =
          { status := 500, result? := none, error? := some (errBody e),
            success? := some false })
    ∧ (∀ m1 m2, (pyStrip (q.getD "")).isEmpty = false → o.first = .ok m1
        → o.second m1 = .ok m2 →
        research q o =
          { status := 200, result? := some (extract_text_from_response m2),
            error? := none, success? := some true }) := by
  refine ⟨?_, ?_, ?_, ?_⟩
  · intro h; simp [research, h]
  · intro e hne hf; simp [research, hne, hf]
  · intro m1 e hne hf hs; simp [research, hne, hf, hs]
  · intro m1 m2 hne hf hs; simp [research, hne, hf, hs]

/-- A follow-up response with a thinking block and a text block. -/
def exMsg : Msg :=
  { content := [{ type := "thinking", text := "plan" },
                { type := "text", text := "answer" }] }

/-- An oracle whose two calls both succeed. -/
def exROracle : ResearchOracle :=
  { first := .ok { content := [] }, second := fun _ => .ok exMsg }

/-- Witness for C8 on the success path at a concrete question. -/
theorem claim8_witness :
    research (some "What is the law?") exROracle
      = { status := 200, result? := some "answer", error? := none,
          success? := some true } := by
  have h := (claim8_research_endpoint (some "What is the law?") exROracle).2.2.2
    { content := [] } exMsg (by decide) rfl rfl
  rw [h]
  decide
